import Mathlib

/-!
Shallow embedding of the tenzir/security-lake-tools repository.

The repository has two modules:

* `status.py` (present in full): queries a security-data-lake API for
  data lakes, exceptions, log sources and subscribers and renders a
  human-readable report.
* `create_source.py` (not present; only its tests are): validates an
  OCSF classification code, verifies/creates a Glue role and registers
  a custom log source.

Python dict records are embedded as Lean structures whose optional keys
become `Option` fields (`d.get(k, v)` becomes `Option.getD`, a
`"k" in d` membership test becomes `Option.isSome`, and a truthiness
test `d.get(k)` on a string or list value additionally checks
non-emptiness).  Each `print(s)` call is modelled as emitting the
string `s` into an output trace; remote calls are modelled as events in
the same trace, with the remote backend supplied as an explicit
argument describing each call outcome.  The boto3 client is modelled
generically: a paginated result is a list of pages, a paginator yields
every page, and a bare (unpaginated) list call returns the first page.
Timestamps are integers (seconds); `timedelta(days=7)` is `7 * 86400`.
-/

namespace SecurityLakeTools

/-- Python truthiness of an optional string value: present and non-empty. -/
def strTruthy : Option String → Bool
  | none => false
  | some s => !s.isEmpty

/-- Python truthiness of an optional list value: present and non-empty. -/
def listTruthy {α : Type} : Option (List α) → Bool
  | none => false
  | some l => !l.isEmpty

/-- `d.get(k, "N/A")` for a string-valued optional field. -/
def getNA (o : Option String) : String := o.getD "N/A"

/-- `d.get(k, "N/A")` for an integer-valued optional field (days counts). -/
def getNatNA (o : Option Nat) : String :=
  match o with
  | none => "N/A"
  | some n => toString n

/-- Python `s.split("/")` on the character list of `s`. -/
def pySplitSlash : List Char → List (List Char)
  | [] => [[]]
  | c :: cs =>
    match pySplitSlash cs with
    | [] => [[]]
    | s :: ss => if c = '/' then [] :: s :: ss else (c :: s) :: ss

/-- Python `s.split("/")[-1]`: the last element of the split. -/
def lastSegment (s : String) : String :=
  ⟨(pySplitSlash s.data).getLastD []⟩

/-- The `"=" * 60` separator rule. -/
def rule60 : String := ⟨List.replicate 60 '='⟩

/-! ## Data model (mypy_boto3_securitylake type defs used by status.py) -/

structure EncryptionConfiguration where
  kmsKeyId : Option String
deriving DecidableEq

structure LifecycleExpiration where
  days : Option Nat
deriving DecidableEq

structure LifecycleTransition where
  storageClass : Option String
  days : Option Nat
deriving DecidableEq

structure LifecycleConfiguration where
  expiration : Option LifecycleExpiration
  transitions : Option (List LifecycleTransition)
deriving DecidableEq

structure ReplicationConfiguration where
  regions : Option (List String)
  roleArn : Option String
deriving DecidableEq

structure UpdateException where
  reason : Option String
deriving DecidableEq

structure UpdateStatus where
  status : Option String
  updateException : Option UpdateException
deriving DecidableEq

structure DataLake where
  region : Option String
  dataLakeArn : Option String
  s3BucketArn : Option String
  encryptionConfiguration : Option EncryptionConfiguration
  lifecycleConfiguration : Option LifecycleConfiguration
  replicationConfiguration : Option ReplicationConfiguration
  createStatus : Option String
  updateStatus : Option UpdateStatus
deriving DecidableEq

structure DataLakeException where
  region : Option String
  message : Option String
  remediation : Option String
  timestamp : Option Int
deriving DecidableEq

structure AwsLogSource where
  sourceName : Option String
  sourceVersion : Option String
deriving DecidableEq

structure CustomProvider where
  location : Option String
  roleArn : Option String
deriving DecidableEq

structure CustomAttributes where
  databaseArn : Option String
  tableArn : Option String
deriving DecidableEq

structure CustomLogSource where
  sourceName : Option String
  sourceVersion : Option String
  provider : Option CustomProvider
  attributes : Option CustomAttributes
deriving DecidableEq

structure SourceEntry where
  awsLogSource : Option AwsLogSource
  customLogSource : Option CustomLogSource
deriving DecidableEq

structure LogSource where
  account : Option String
  region : Option String
  sources : Option (List SourceEntry)
deriving DecidableEq

structure SubscriberIdentity where
  principal : Option String
  externalId : Option String
deriving DecidableEq

structure Subscriber where
  subscriberName : Option String
  subscriberId : Option String
  subscriberArn : Option String
  subscriberStatus : Option String
  subscriberDescription : Option String
  subscriberIdentity : Option SubscriberIdentity
  accessTypes : Option (List String)
  sources : Option (List SourceEntry)
  resourceShareArn : Option String
  s3BucketArn : Option String
  subscriberEndpoint : Option String
deriving DecidableEq

/-! ## Remote backend model

A call against the service either succeeds with a list of result pages,
fails with a `ClientError` carrying a message, or fails with a
`TokenRetrievalError` (expired SSO token). -/

inductive QueryResult (α : Type) where
  | ok (pages : List (List α))
  | clientError (msg : String)
  | tokenError
deriving DecidableEq

/-- The paginator loop `for page in paginator.paginate(): acc.extend(page)`. -/
def paginateAll {α : Type} (pages : List (List α)) : List α :=
  pages.foldl (fun acc p => acc ++ p) []

/-- A bare, unpaginated list call returns the first page of the result. -/
def firstPage {α : Type} (pages : List (List α)) : List α :=
  pages.headD []

/-- The three lines printed on a `TokenRetrievalError`. -/
def ssoLines : List String :=
  ["✗ AWS SSO token has expired",
   "  Please refresh your SSO session:",
   "  aws sso login --profile <your-profile>"]

/-- `get_data_lakes`: a single `list_data_lakes()` call, no paginator;
returns `response.get("dataLakes", [])`, or `None` after printing a
diagnostic on failure. -/
def get_data_lakes (r : QueryResult DataLake) :
    Option (List DataLake) × List String :=
  match r with
  | .ok pages => (some (firstPage pages), [])
  | .clientError m => (none, ["✗ Failed to list data lakes: " ++ m])
  | .tokenError => (none, ssoLines)

/-- `get_data_lake_exceptions`: pages through `list_data_lake_exceptions`
and concatenates every page, or returns `None` after a diagnostic. -/
def get_data_lake_exceptions (r : QueryResult DataLakeException) :
    Option (List DataLakeException) × List String :=
  match r with
  | .ok pages => (some (paginateAll pages), [])
  | .clientError m => (none, ["✗ Failed to list data lake exceptions: " ++ m])
  | .tokenError => (none, ssoLines)

/-- `get_log_sources`: pages through `list_log_sources` and concatenates
every page, or returns `None` after a diagnostic. -/
def get_log_sources (r : QueryResult LogSource) :
    Option (List LogSource) × List String :=
  match r with
  | .ok pages => (some (paginateAll pages), [])
  | .clientError m => (none, ["✗ Failed to list log sources: " ++ m])
  | .tokenError => (none, ssoLines)

/-- `get_subscribers`: pages through `list_subscribers` and concatenates
every page, or returns `None` after a diagnostic. -/
def get_subscribers (r : QueryResult Subscriber) :
    Option (List Subscriber) × List String :=
  match r with
  | .ok pages => (some (paginateAll pages), [])
  | .clientError m => (none, ["✗ Failed to list subscribers: " ++ m])
  | .tokenError => (none, ssoLines)

/-! ## Rendering (the print_* functions)

Each function returns the list of strings passed to `print`, in order. -/

/-- The lines printed for one data lake inside the loop of
`print_data_lakes` (without the trailing blank `print()`). -/
def dataLakeLines (lake : DataLake) : List String :=
  ["  Region: " ++ getNA lake.region,
   "  ARN: " ++ getNA lake.dataLakeArn,
   "  S3 Bucket: " ++ getNA lake.s3BucketArn]
  ++ (match lake.encryptionConfiguration with
      | some enc => ["  Encryption KMS Key: " ++ enc.kmsKeyId.getD "default"]
      | none => [])
  ++ (match lake.lifecycleConfiguration with
      | some lc =>
        (match lc.expiration with
         | some e => ["  Expiration: " ++ getNatNA e.days ++ " days"]
         | none => [])
        ++ (match lc.transitions with
            | some ts => ts.map (fun t =>
                "  Transition to " ++ getNA t.storageClass ++ ": "
                  ++ getNatNA t.days ++ " days")
            | none => [])
      | none => [])
  ++ (match lake.replicationConfiguration with
      | some repl =>
        (if listTruthy repl.regions then
          ["  Replication Regions: " ++ String.intercalate ", " (repl.regions.getD [])]
         else [])
        ++ (if strTruthy repl.roleArn then
             ["  Replication Role: " ++ repl.roleArn.getD ""]
            else [])
      | none => [])
  ++ ["  Status: " ++ getNA lake.createStatus]
  ++ (match lake.updateStatus with
      | some u =>
        ["  Update Status: " ++ getNA u.status]
        ++ (match u.updateException with
            | some ex => ["  Update Exception: " ++ getNA ex.reason]
            | none => [])
      | none => [])

/-- `print_data_lakes`. -/
def print_data_lakes (data_lakes : List DataLake) : List String :=
  ["Data Lakes", rule60]
  ++ (if data_lakes.isEmpty then
        ["  No data lakes configured"]
      else
        (data_lakes.map (fun lake => dataLakeLines lake ++ [""])).flatten)
  ++ [""]

/-- The lines printed for one exception inside the loop of
`print_exceptions`. -/
def exceptionLines (exc : DataLakeException) : List String :=
  ["  Region: " ++ getNA exc.region,
   "  Exception: " ++ getNA exc.message]
  ++ (if strTruthy exc.remediation then
        ["  Remediation: " ++ exc.remediation.getD ""]
      else [])
  ++ (match exc.timestamp with
      | some t => ["  Timestamp: " ++ toString t]
      | none => [])

/-- The filter `[exc for exc in exceptions if exc.get("timestamp", cutoff) >= cutoff]`
with `cutoff = now - 7 days`. -/
def recentExceptions (exceptions : List DataLakeException) (now : Int) :
    List DataLakeException :=
  let cutoff : Int := now - 7 * 86400
  exceptions.filter (fun exc => cutoff ≤ exc.timestamp.getD cutoff)

/-- `print_exceptions` (the query time `now` makes the 7-day cutoff explicit). -/
def print_exceptions (exceptions : List DataLakeException) (now : Int) :
    List String :=
  ["Data Lake Exceptions (last 7 days)", rule60]
  ++ (let recent := recentExceptions exceptions now
      if recent.isEmpty then
        ["  No recent exceptions"]
      else
        (recent.map (fun exc => exceptionLines exc ++ [""])).flatten)
  ++ [""]

/-- The lines printed for one entry of a log source's nested `sources`. -/
def sourceEntryLines (src : SourceEntry) : List String :=
  (match src.awsLogSource with
   | some aws_src =>
     ["    AWS Source: " ++ getNA aws_src.sourceName,
      "      Version: " ++ getNA aws_src.sourceVersion]
   | none => [])
  ++ (match src.customLogSource with
      | some custom_src =>
        ["    Custom Source: " ++ getNA custom_src.sourceName,
         "      Version: " ++ getNA custom_src.sourceVersion]
        ++ (match custom_src.provider with
            | some provider =>
              ["      Location: " ++ getNA provider.location,
               "      Role ARN: " ++ getNA provider.roleArn]
            | none => [])
        ++ (match custom_src.attributes with
            | some attrs =>
              (if strTruthy attrs.databaseArn then
                 ["      Glue Database: " ++ lastSegment (attrs.databaseArn.getD "")]
               else [])
              ++ (if strTruthy attrs.tableArn then
                    ["      Glue Table: " ++ lastSegment (attrs.tableArn.getD "")]
                  else [])
            | none => [])
      | none => [])

/-- The lines printed for one log source inside the loop of
`print_log_sources`. -/
def logSourceLines (source : LogSource) : List String :=
  ["  Account: " ++ getNA source.account ++ ", Region: " ++ getNA source.region]
  ++ (match source.sources with
      | some srcs => (srcs.map sourceEntryLines).flatten
      | none => [])

/-- `print_log_sources`. -/
def print_log_sources (sources : List LogSource) : List String :=
  ["Log Sources", rule60]
  ++ (if sources.isEmpty then
        ["  No log sources configured"]
      else
        (sources.map (fun source => logSourceLines source ++ [""])).flatten)
  ++ [""]

/-- The lines printed for one subscriber inside the loop of
`print_subscribers`. -/
def subscriberLines (sub : Subscriber) : List String :=
  ["  Name: " ++ getNA sub.subscriberName,
   "  ID: " ++ getNA sub.subscriberId,
   "  ARN: " ++ getNA sub.subscriberArn,
   "  Status: " ++ getNA sub.subscriberStatus]
  ++ (if strTruthy sub.subscriberDescription then
        ["  Description: " ++ sub.subscriberDescription.getD ""]
      else [])
  ++ (match sub.subscriberIdentity with
      | some identity =>
        ["  Principal: " ++ getNA identity.principal,
         "  External ID: " ++ getNA identity.externalId]
      | none => [])
  ++ (if listTruthy sub.accessTypes then
        ["  Access Types: " ++ String.intercalate ", " (sub.accessTypes.getD [])]
      else [])
  ++ (if listTruthy sub.sources then
        ["  Sources:"]
        ++ ((sub.sources.getD []).map (fun src =>
              (match src.awsLogSource with
               | some aws_src => ["    - AWS: " ++ getNA aws_src.sourceName]
               | none => [])
              ++ (match src.customLogSource with
                  | some custom_src => ["    - Custom: " ++ getNA custom_src.sourceName]
                  | none => []))).flatten
      else [])
  ++ (if strTruthy sub.resourceShareArn then
        ["  Resource Share: " ++ sub.resourceShareArn.getD ""]
      else [])
  ++ (if strTruthy sub.s3BucketArn then
        ["  S3 Bucket: " ++ sub.s3BucketArn.getD ""]
      else [])
  ++ (if strTruthy sub.subscriberEndpoint then
        ["  Endpoint: " ++ sub.subscriberEndpoint.getD ""]
      else [])

/-- `print_subscribers`. -/
def print_subscribers (subscribers : List Subscriber) : List String :=
  ["Subscribers", rule60]
  ++ (if subscribers.isEmpty then
        ["  No subscribers configured"]
      else
        (subscribers.map (fun sub => subscriberLines sub ++ [""])).flatten)
  ++ [""]

/-! ## show_status and main -/

/-- The four query operations, in the order show_status issues them. -/
inductive QueryKind where
  | dataLakes
  | dlExceptions
  | logSources
  | subscribers
deriving DecidableEq

/-- An observable event of a run: a printed string or a remote query call. -/
inductive Event where
  | out (line : String)
  | call (q : QueryKind)
deriving DecidableEq

/-- The backend supplied to one run of show_status: the outcome of each
of the four queries. -/
structure Backend where
  dataLakes : QueryResult DataLake
  dlExceptions : QueryResult DataLakeException
  logSources : QueryResult LogSource
  subscribers : QueryResult Subscriber
deriving DecidableEq

/-- The first string printed by `show_status`. -/
def headerLine (region : String) : String :=
  "\nSecurity Lake Status (Region: " ++ region ++ ")\n"

/-- `show_status(region, session)`: prints the header, issues the four
queries in order (stopping at the first failure with exit code 1), and
only when all four succeed renders the four sections and returns 0. -/
def show_status (region : String) (now : Int) (b : Backend) :
    Int × List Event :=
  let tr0 : List Event := [.out (headerLine region)]
  let (data_lakes, dlDiag) := get_data_lakes b.dataLakes
  let tr1 := tr0 ++ Event.call .dataLakes :: dlDiag.map Event.out
  match data_lakes with
  | none => (1, tr1)
  | some lakes =>
    let (exceptions, exDiag) := get_data_lake_exceptions b.dlExceptions
    let tr2 := tr1 ++ Event.call .dlExceptions :: exDiag.map Event.out
    match exceptions with
    | none => (1, tr2)
    | some excs =>
      let (sources, lsDiag) := get_log_sources b.logSources
      let tr3 := tr2 ++ Event.call .logSources :: lsDiag.map Event.out
      match sources with
      | none => (1, tr3)
      | some srcs =>
        let (subscribers, subDiag) := get_subscribers b.subscribers
        let tr4 := tr3 ++ Event.call .subscribers :: subDiag.map Event.out
        match subscribers with
        | none => (1, tr4)
        | some subs =>
          (0, tr4 ++ (print_data_lakes lakes
                      ++ print_exceptions excs now
                      ++ print_log_sources srcs
                      ++ print_subscribers subs).map Event.out)

/-- The lines printed when the boto3 session has no credentials. -/
def credErrorLines : List String :=
  ["✗ Error: No AWS credentials found",
   "  Configure credentials using:",
   "  • aws configure",
   "  • Environment variables (AWS_ACCESS_KEY_ID, AWS_SECRET_ACCESS_KEY)",
   "  • IAM role (if running on EC2)"]

/-- The lines printed when no region could be resolved. -/
def regionErrorLines : List String :=
  ["✗ Error: No AWS region specified",
   "  Provide a region using one of:",
   "  • --region flag",
   "  • AWS_DEFAULT_REGION environment variable",
   "  • region setting in your AWS profile"]

/-- Python `a or b` on two optional strings (`None` and `""` are falsy). -/
def pyOrStr (a b : Option String) : Option String :=
  if strTruthy a then a else b

/-- `main()`: resolves the session (failing on missing credentials), then
the region as `args.region or session.region_name` (hard error when the
result is falsy), then delegates to `show_status`. -/
def main (credsOk : Bool) (argRegion : Option String)
    (sessionRegion : Option String) (now : Int) (b : Backend) :
    Int × List Event :=
  if !credsOk then
    (1, credErrorLines.map Event.out)
  else
    let region := pyOrStr argRegion sessionRegion
    if !(strTruthy region) then
      (1, regionErrorLines.map Event.out)
    else
      show_status (region.getD "") now b

/-! ## create_source (module absent from the sources; only its tests are).

The definitions below are modelled from the spec (section 4.3, section 8)
and from the assertions of tests/test_create_source.py. -/

/-- Modelled from the spec: the static OCSF classification table
`OCSF_EVENT_CLASSES` of create_source.py, a compile-time constant map
from 4-digit classification codes to category names.  The module itself
is missing; the four entries fixed by the tests are carried here, and
every theorem about the table quantifies over membership rather than
relying on its exact extent. -/
def OCSF_EVENT_CLASSES : List (String × String) :=
  [("1001", "FILE_ACTIVITY"),
   ("2001", "SECURITY_FINDING"),
   ("3001", "ACCOUNT_CHANGE"),
   ("4001", "NETWORK_ACTIVITY")]

/-- Lookup of a classification code in the static table. -/
def lookupClass (code : String) : Option String :=
  (OCSF_EVENT_CLASSES.find? (fun p => p.1 == code)).map (fun p => p.2)

/-- A remote call issued by the create_source flow. -/
inductive CreateCall where
  | getRole (roleName : String)
  | createRole
  | createPolicy
  | attachRolePolicy
  | createCustomLogSource
deriving DecidableEq

/-- An observable event of the create_source flow. -/
inductive CEvent where
  | out (line : String)
  | call (c : CreateCall)
deriving DecidableEq

/-- Outcome of the `create_custom_log_source` remote call. -/
inductive CreateSourceOutcome where
  | ok (sourceName : String)
  | err (msg : String)
deriving DecidableEq

/-- Modelled from the spec: `create_custom_source(classUid, region,
accountId, externalId, roleArn, session)` of the missing
create_source.py.  It validates the classification code against the
static table and fails immediately, with no remote call issued, when
the code is unknown; otherwise it issues the create-custom-source call
and reports success or failure as a boolean, printing a diagnostic on
rejection. -/
def create_custom_source (classUid : String) (_region : String)
    (_accountId : String) (_externalId : String) (_roleArn : String)
    (resp : CreateSourceOutcome) : Bool × List CEvent :=
  match lookupClass classUid with
  | none =>
    (false, [.out ("✗ Error: Unknown OCSF class UID: " ++ classUid)])
  | some _ =>
    match resp with
    | .ok sourceName =>
      (true, [.call .createCustomLogSource,
              .out ("✓ Created custom source: " ++ sourceName)])
    | .err m =>
      (false, [.call .createCustomLogSource,
               .out ("✗ Failed to create custom source: " ++ m)])

/-- Outcome of the `get_role` lookup issued by verify_glue_role. -/
inductive GetRoleOutcome where
  | ok
  | noSuchEntity
  | otherError (msg : String)
deriving DecidableEq

/-- Modelled from the spec: `verify_glue_role(session, roleArn)` of the
missing create_source.py.  It issues a get-role lookup for the role
name extracted from the ARN (the segment after the last slash, per the
tests); a successful lookup yields true, a role-not-found error yields
a plain false, and any other failure yields false after printing a
warning. -/
def verify_glue_role (roleArn : String) (o : GetRoleOutcome) :
    Bool × List CEvent :=
  let lookup : List CEvent := [.call (.getRole (lastSegment roleArn))]
  match o with
  | .ok => (true, lookup)
  | .noSuchEntity => (false, lookup)
  | .otherError m =>
    (false, lookup ++ [.out ("⚠ Warning: could not verify role: " ++ m)])

/-! ## Observations of a run trace -/

/-- The strings printed during a run, in order. -/
def outputs (tr : List Event) : List String :=
  tr.filterMap (fun e => match e with | .out s => some s | .call _ => none)

/-- The remote queries issued during a run, in order. -/
def queryCalls (tr : List Event) : List QueryKind :=
  tr.filterMap (fun e => match e with | .call q => some q | .out _ => none)

/-- The remote calls issued during a create-source run, in order. -/
def createCalls (tr : List CEvent) : List CreateCall :=
  tr.filterMap (fun e => match e with | .call c => some c | .out _ => none)

/-- The first line printed by each of the four report sections. -/
def sectionHeads : List String :=
  ["Data Lakes", "Data Lake Exceptions (last 7 days)", "Log Sources", "Subscribers"]

/-- Whether a query outcome is a success. -/
def isOk {α : Type} : QueryResult α → Bool
  | .ok _ => true
  | _ => false

/-- The diagnostic lines printed by the first failing query of a backend
(empty when every query succeeds). -/
def firstFailureDiag (b : Backend) : List String :=
  if !(isOk b.dataLakes) then (get_data_lakes b.dataLakes).2
  else if !(isOk b.dlExceptions) then (get_data_lake_exceptions b.dlExceptions).2
  else if !(isOk b.logSources) then (get_log_sources b.logSources).2
  else if !(isOk b.subscribers) then (get_subscribers b.subscribers).2
  else []

/-! ## Helper lemmas -/

lemma paginateAll_go {α : Type} (pages : List (List α)) (acc : List α) :
    pages.foldl (fun a p => a ++ p) acc = acc ++ pages.flatten := by
  induction pages generalizing acc with
  | nil => simp
  | cons p ps ih => simp [List.foldl_cons, ih, List.append_assoc]

/-- The paginator loop produces the concatenation of all pages. -/
lemma paginateAll_eq_flatten {α : Type} (pages : List (List α)) :
    paginateAll pages = pages.flatten := by
  simp [paginateAll, paginateAll_go]

lemma pySplitSlash_ne_nil (l : List Char) : pySplitSlash l ≠ [] := by
  cases l with
  | nil => simp [pySplitSlash]
  | cons c cs =>
    simp only [pySplitSlash]
    cases h : pySplitSlash cs with
    | nil => simp
    | cons s ss =>
      by_cases hc : c = '/' <;> simp [hc]

lemma pySplitSlash_no_slash (l : List Char) (h : '/' ∉ l) :
    pySplitSlash l = [l] := by
  induction l with
  | nil => rfl
  | cons c cs ih =>
    have hc : c ≠ '/' := by
      intro hc
      exact h (hc ▸ List.mem_cons_self c cs)
    have hcs : '/' ∉ cs := fun hm => h (List.mem_cons_of_mem c hm)
    simp only [pySplitSlash, ih hcs]
    simp [Ne.symm, hc]

lemma pySplitSlash_slash_append (a b : List Char) (h : '/' ∉ b) :
    ∃ pre, pySplitSlash (a ++ '/' :: b) = pre ++ [b] ∧ pre ≠ [] := by
  induction a with
  | nil =>
    refine ⟨[[]], ?_, by simp⟩
    simp [pySplitSlash, pySplitSlash_no_slash b h]
  | cons c cs ih =>
    obtain ⟨pre, hpre, hne⟩ := ih
    cases pre with
    | nil => exact absurd rfl hne
    | cons p ps =>
      by_cases hc : c = '/'
      · refine ⟨[] :: p :: ps, ?_, by simp⟩
        simp only [List.cons_append, pySplitSlash, hc, if_true]
        simp only [List.append_eq]
        rw [hpre]
        rfl
      · refine ⟨(c :: p) :: ps, ?_, by simp⟩
        simp only [List.cons_append, pySplitSlash, hc, if_false]
        simp only [List.append_eq]
        rw [hpre]
        rfl

/-- String-level form: `split("/")[-1]` of `a ++ "/" ++ b` is `b`
whenever `b` has no further slash. -/
lemma lastSegment_append (a b : String) (h : '/' ∉ b.data) :
    lastSegment (a ++ "/" ++ b) = b := by
  obtain ⟨pre, hpre, _⟩ := pySplitSlash_slash_append a.data b.data h
  have hdata : (a ++ "/" ++ b).data = a.data ++ '/' :: b.data := by
    simp [String.data_append, List.append_assoc]
  cases b with
  | mk bl =>
    simp only [lastSegment, hdata, hpre]
    simp [List.getLastD_eq_getLast?, List.getLast?_concat]

lemma append_ne_of_head (p m s : String) (c : Char)
    (hp : p.data.head? = some c) (hs : s.data.head? ≠ some c) :
    p ++ m ≠ s := by
  intro h
  apply hs
  rw [← h, String.data_append]
  cases hd : p.data with
  | nil => rw [hd] at hp; simp at hp
  | cons x xs =>
    rw [hd] at hp
    simp at hp
    simp [hp]

lemma sectionHead_ne_headerLine (s : String) (hs : s ∈ sectionHeads)
    (region : String) : s ≠ headerLine region := by
  have h : headerLine region
      = "\nSecurity Lake Status (Region: " ++ (region ++ ")\n") := rfl
  rw [h]
  intro heq
  have := append_ne_of_head "\nSecurity Lake Status (Region: "
    (region ++ ")\n") s '\n' (by decide) ?_ heq.symm
  · exact this
  · simp [sectionHeads] at hs
    rcases hs with rfl | rfl | rfl | rfl <;> decide

lemma sectionHead_ne_clientDiag (pre m s : String) (hs : s ∈ sectionHeads)
    (hpre : pre.data.head? = some '✗') : s ≠ pre ++ m := by
  intro heq
  have hhd : s.data.head? ≠ some '✗' := by
    simp [sectionHeads] at hs
    rcases hs with rfl | rfl | rfl | rfl <;> decide
  exact append_ne_of_head pre m s '✗' hpre hhd heq.symm

lemma sectionHead_notMem_sso (s : String) (hs : s ∈ sectionHeads) :
    s ∉ ssoLines := by
  simp [sectionHeads] at hs
  rcases hs with rfl | rfl | rfl | rfl <;> decide

lemma isEmpty_false_of_ne (s : String) (h : s ≠ "") : s.isEmpty = false := by
  cases hI : s.isEmpty with
  | true => exact absurd ((String.isEmpty_iff s).mp hI) h
  | false => rfl

lemma queryCalls_map_out (l : List String) :
    queryCalls (l.map Event.out) = [] := by
  induction l with
  | nil => rfl
  | cons x xs ih => simp [queryCalls, List.filterMap_cons]

/-! ## Claims -/

/-- C2, counterexample: against a data-lakes backend whose results span
two pages, get_data_lakes returns only the first page (a single-page
prefix), not the concatenation of both pages. -/
theorem c2_counterexample :
    (get_data_lakes (QueryResult.ok
        [[DataLake.mk (some "us-east-1") none none none none none none none],
         [DataLake.mk (some "eu-west-1") none none none none none none none]])).1
      = some [DataLake.mk (some "us-east-1") none none none none none none none]
    ∧ [[DataLake.mk (some "us-east-1") none none none none none none none],
       [DataLake.mk (some "eu-west-1") none none none none none none none]].flatten
      = [DataLake.mk (some "us-east-1") none none none none none none none,
         DataLake.mk (some "eu-west-1") none none none none none none none]
    ∧ [DataLake.mk (some "us-east-1") none none none none none none none]
      ≠ [DataLake.mk (some "us-east-1") none none none none none none none,
         DataLake.mk (some "eu-west-1") none none none none none none none] := by
  refine ⟨rfl, rfl, by simp⟩

/-- C2 (amended): the three paginator-based operations
(get_data_lake_exceptions, get_log_sources, get_subscribers) page
through all result pages and return the concatenation of every page;
get_data_lakes issues a single unpaginated call and returns just that
response (the first page of results). -/
theorem c2_pagination_amended (p1 : List (List DataLake))
    (p2 : List (List DataLakeException)) (p3 : List (List LogSource))
    (p4 : List (List Subscriber)) :
    (get_data_lake_exceptions (QueryResult.ok p2)).1 = some p2.flatten
    ∧ (get_log_sources (QueryResult.ok p3)).1 = some p3.flatten
    ∧ (get_subscribers (QueryResult.ok p4)).1 = some p4.flatten
    ∧ (get_data_lakes (QueryResult.ok p1)).1 = some (p1.headD []) := by
  refine ⟨?_, ?_, ?_, rfl⟩ <;>
    simp [get_data_lake_exceptions, get_log_sources, get_subscribers,
      paginateAll_eq_flatten]

/-- C3, counterexample: a subscriber whose backend record omits the
optional description is rendered with one line fewer and with no
sentinel line for the description, and a data lake without an
encryption configuration gets no encryption line; the shape of a
record's rendered output therefore depends on which optional fields
are present. -/
theorem c3_counterexample :
    (subscriberLines (Subscriber.mk (some "tnz") none none none
        (some "demo subscriber") none none none none none none)).length = 5
    ∧ (subscriberLines (Subscriber.mk (some "tnz") none none none
        none none none none none none none)).length = 4
    ∧ "  Description: N/A" ∉ subscriberLines (Subscriber.mk (some "tnz")
        none none none none none none none none none none)
    ∧ "  Encryption KMS Key: N/A" ∉ dataLakeLines (DataLake.mk none none
        none none none none none none) := by
  refine ⟨rfl, rfl, by decide, by decide⟩

/-- C3 (amended): optional fields rendered unconditionally (a data
lake's region, ARN, bucket and create status; a subscriber's name, id,
ARN and status; an exception's region and message) print the sentinel
N/A when the backend omits them, so those lines are present in every
record's output; presence-guarded optional fields produce no line at
all when absent, so the overall shape varies with the guarded fields. -/
theorem c3_sentinel_amended (lake : DataLake) (sub : Subscriber)
    (exc : DataLakeException) :
    (dataLakeLines lake).take 3
      = ["  Region: " ++ getNA lake.region,
         "  ARN: " ++ getNA lake.dataLakeArn,
         "  S3 Bucket: " ++ getNA lake.s3BucketArn]
    ∧ ("  Status: " ++ getNA lake.createStatus) ∈ dataLakeLines lake
    ∧ (subscriberLines sub).take 4
      = ["  Name: " ++ getNA sub.subscriberName,
         "  ID: " ++ getNA sub.subscriberId,
         "  ARN: " ++ getNA sub.subscriberArn,
         "  Status: " ++ getNA sub.subscriberStatus]
    ∧ (exceptionLines exc).take 2
      = ["  Region: " ++ getNA exc.region,
         "  Exception: " ++ getNA exc.message]
    ∧ dataLakeLines (DataLake.mk none none none none none none none none)
      = ["  Region: N/A", "  ARN: N/A", "  S3 Bucket: N/A", "  Status: N/A"]
    ∧ subscriberLines (Subscriber.mk none none none none none none none
        none none none none)
      = ["  Name: N/A", "  ID: N/A", "  ARN: N/A", "  Status: N/A"] := by
  refine ⟨rfl, ?_, rfl, rfl, rfl, rfl⟩
  simp [dataLakeLines]

/-- C4: print_exceptions renders exactly the entries whose timestamp is
at least the cutoff `now - 7 days` (inclusive boundary), and an entry
with no timestamp defaults to the cutoff itself and is rendered; on the
spec's example timestamps T-10d, T-6d, T-1d, exactly the last two
survive the filter. -/
theorem c4_exception_window (exceptions : List DataLakeException)
    (now : Int) :
    recentExceptions exceptions now
      = exceptions.filter (fun exc =>
          match exc.timestamp with
          | none => true
          | some t => decide (now - 7 * 86400 ≤ t))
    ∧ recentExceptions
        [DataLakeException.mk none none none (some (now - 864000)),
         DataLakeException.mk none none none (some (now - 518400)),
         DataLakeException.mk none none none (some (now - 86400))] now
      = [DataLakeException.mk none none none (some (now - 518400)),
         DataLakeException.mk none none none (some (now - 86400))]
    ∧ recentExceptions [DataLakeException.mk none none none none] now
      = [DataLakeException.mk none none none none] := by
  refine ⟨?_, ?_, ?_⟩
  · unfold recentExceptions
    apply List.filter_congr
    intro exc _
    cases h : exc.timestamp <;> simp [h]
  · simp only [recentExceptions, List.filter_cons, List.filter_nil,
      Option.getD_some, decide_eq_true_eq]
    split_ifs <;> first | rfl | omega
  · simp [recentExceptions, List.filter_cons]

/-- C5: for every query operation, a ClientError is converted to the
failure sentinel (None) after printing the message carried by the API,
and a TokenRetrievalError is converted to None after printing the SSO
re-authentication hint; a success prints nothing.  All outcomes return
normally, so no failure propagates to the caller. -/
theorem c5_remote_failures (m : String) :
    get_data_lakes (QueryResult.clientError m)
      = (none, ["✗ Failed to list data lakes: " ++ m])
    ∧ get_data_lake_exceptions (QueryResult.clientError m)
      = (none, ["✗ Failed to list data lake exceptions: " ++ m])
    ∧ get_log_sources (QueryResult.clientError m)
      = (none, ["✗ Failed to list log sources: " ++ m])
    ∧ get_subscribers (QueryResult.clientError m)
      = (none, ["✗ Failed to list subscribers: " ++ m])
    ∧ get_data_lakes QueryResult.tokenError = (none, ssoLines)
    ∧ get_data_lake_exceptions QueryResult.tokenError = (none, ssoLines)
    ∧ get_log_sources QueryResult.tokenError = (none, ssoLines)
    ∧ get_subscribers QueryResult.tokenError = (none, ssoLines)
    ∧ "  aws sso login --profile <your-profile>" ∈ ssoLines
    ∧ (∀ p : List (List DataLake),
        (get_data_lakes (QueryResult.ok p)).2 = []
        ∧ ((get_data_lakes (QueryResult.ok p)).1).isSome = true) := by
  refine ⟨rfl, rfl, rfl, rfl, rfl, rfl, rfl, rfl, by decide, ?_⟩
  intro p
  exact ⟨rfl, rfl⟩

/-- C6: a classification code not present in the static table makes
create_custom_source return false immediately with no remote call
issued. -/
theorem c6_unknown_code_no_calls (code region accountId externalId
    roleArn : String) (resp : CreateSourceOutcome)
    (h : lookupClass code = none) :
    (create_custom_source code region accountId externalId roleArn resp).1
      = false
    ∧ createCalls
        (create_custom_source code region accountId externalId roleArn resp).2
      = [] := by
  constructor <;> simp [create_custom_source, h, createCalls]

/-- Witness for C6 at the concrete unknown code 9999 from the tests. -/
theorem c6_witness :
    lookupClass "9999" = none
    ∧ (create_custom_source "9999" "us-east-1" "123456789012"
        "test-external-id" "arn:aws:iam::123456789012:role/test-role"
        (CreateSourceOutcome.ok "tnz-ocsf-9999")).1 = false
    ∧ createCalls (create_custom_source "9999" "us-east-1" "123456789012"
        "test-external-id" "arn:aws:iam::123456789012:role/test-role"
        (CreateSourceOutcome.ok "tnz-ocsf-9999")).2 = [] :=
  ⟨by decide,
   (c6_unknown_code_no_calls "9999" "us-east-1" "123456789012"
     "test-external-id" "arn:aws:iam::123456789012:role/test-role"
     (CreateSourceOutcome.ok "tnz-ocsf-9999") (by decide)).1,
   (c6_unknown_code_no_calls "9999" "us-east-1" "123456789012"
     "test-external-id" "arn:aws:iam::123456789012:role/test-role"
     (CreateSourceOutcome.ok "tnz-ocsf-9999") (by decide)).2⟩

/-- C7: verify_glue_role returns true exactly when the get-role lookup
succeeds; a role-not-found error yields a plain false with no warning
printed, and any other lookup failure yields false with a warning, in
every case without propagating an error. -/
theorem c7_verify_role (roleArn : String) :
    (∀ o : GetRoleOutcome,
        (verify_glue_role roleArn o).1 = decide (o = GetRoleOutcome.ok))
    ∧ verify_glue_role roleArn GetRoleOutcome.ok
      = (true, [CEvent.call (CreateCall.getRole (lastSegment roleArn))])
    ∧ verify_glue_role roleArn GetRoleOutcome.noSuchEntity
      = (false, [CEvent.call (CreateCall.getRole (lastSegment roleArn))])
    ∧ ∀ m, (verify_glue_role roleArn (GetRoleOutcome.otherError m)).1 = false
        ∧ CEvent.out ("⚠ Warning: could not verify role: " ++ m)
            ∈ (verify_glue_role roleArn (GetRoleOutcome.otherError m)).2 := by
  refine ⟨?_, rfl, rfl, ?_⟩
  · intro o; cases o <;> simp [verify_glue_role]
  · intro m; exact ⟨rfl, by simp [verify_glue_role]⟩

/-- C9: for any ARN of the form a ++ "/" ++ b with no slash in b, the
rendered Glue database and table names are exactly the substring after
the last slash, as extracted by split("/")[-1] in print_log_sources. -/
theorem c9_glue_names (a b : String) (h : '/' ∉ b.data) :
    lastSegment (a ++ "/" ++ b) = b
    ∧ ("      Glue Database: " ++ b) ∈ sourceEntryLines
        (SourceEntry.mk none (some (CustomLogSource.mk none none none
          (some (CustomAttributes.mk (some (a ++ "/" ++ b)) none)))))
    ∧ ("      Glue Table: " ++ b) ∈ sourceEntryLines
        (SourceEntry.mk none (some (CustomLogSource.mk none none none
          (some (CustomAttributes.mk none (some (a ++ "/" ++ b))))))) := by
  have hseg := lastSegment_append a b h
  have hne : (a ++ "/" ++ b) ≠ "" := by
    intro he
    have hdat : (a ++ "/" ++ b).data = [] := by rw [he]
    rw [String.data_append, String.data_append] at hdat
    simp at hdat
  have hF := isEmpty_false_of_ne _ hne
  refine ⟨hseg, ?_, ?_⟩ <;>
    simp [sourceEntryLines, strTruthy, hF, hseg]

/-- Witness for C9 at a concrete Glue database ARN. -/
theorem c9_witness :
    lastSegment ("arn:aws:glue:us-east-1:123456789012:database" ++ "/"
      ++ "amazon_security_lake_glue_db") = "amazon_security_lake_glue_db" :=
  (c9_glue_names "arn:aws:glue:us-east-1:123456789012:database"
    "amazon_security_lake_glue_db" (by decide)).1

/-- C8: the status command resolves the region as explicit flag first,
then session default; when the flag is truthy it wins, when only the
session region is truthy it is used, and when neither yields a region
the command prints an error and returns 1 without issuing any query. -/
theorem c8_region_resolution (now : Int) (b : Backend) :
    (∀ (s : String) (sr : Option String), s ≠ "" →
        main true (some s) sr now b = show_status s now b)
    ∧ (∀ (ar : Option String) (s : String), strTruthy ar = false → s ≠ "" →
        main true ar (some s) now b = show_status s now b)
    ∧ (∀ (ar sr : Option String), strTruthy ar = false →
        strTruthy sr = false →
        main true ar sr now b = (1, regionErrorLines.map Event.out)
        ∧ queryCalls (main true ar sr now b).2 = []) := by
  refine ⟨?_, ?_, ?_⟩
  · intro s sr hs
    have hF := isEmpty_false_of_ne s hs
    simp [main, pyOrStr, strTruthy, hF]
  · intro ar s har hs
    have hF := isEmpty_false_of_ne s hs
    have hss : strTruthy (some s) = true := by simp [strTruthy, hF]
    simp [main, pyOrStr, har, hss]
  · intro ar sr har hsr
    refine ⟨?_, ?_⟩ <;>
      simp [main, pyOrStr, har, hsr, queryCalls_map_out]

/-- Witness for C8 at concrete flag and session regions. -/
theorem c8_witness :
    main true (some "us-east-1") none 0
        (Backend.mk (QueryResult.ok []) (QueryResult.ok [])
          (QueryResult.ok []) (QueryResult.ok []))
      = show_status "us-east-1" 0
        (Backend.mk (QueryResult.ok []) (QueryResult.ok [])
          (QueryResult.ok []) (QueryResult.ok []))
    ∧ main true none (some "eu-central-1") 0
        (Backend.mk (QueryResult.ok []) (QueryResult.ok [])
          (QueryResult.ok []) (QueryResult.ok []))
      = show_status "eu-central-1" 0
        (Backend.mk (QueryResult.ok []) (QueryResult.ok [])
          (QueryResult.ok []) (QueryResult.ok []))
    ∧ main true none none 0
        (Backend.mk (QueryResult.ok []) (QueryResult.ok [])
          (QueryResult.ok []) (QueryResult.ok []))
      = (1, regionErrorLines.map Event.out)
    ∧ queryCalls (main true none none 0
        (Backend.mk (QueryResult.ok []) (QueryResult.ok [])
          (QueryResult.ok []) (QueryResult.ok []))).2 = [] :=
  ⟨(c8_region_resolution 0 _).1 "us-east-1" none (by decide),
   (c8_region_resolution 0 _).2.1 none "eu-central-1" rfl (by decide),
   ((c8_region_resolution 0 _).2.2 none none rfl rfl).1,
   ((c8_region_resolution 0 _).2.2 none none rfl rfl).2⟩

lemma queryCalls_append (a b : List Event) :
    queryCalls (a ++ b) = queryCalls a ++ queryCalls b := by
  simp [queryCalls, List.filterMap_append]

lemma queryCalls_cons_out (s : String) (tr : List Event) :
    queryCalls (Event.out s :: tr) = queryCalls tr := rfl

lemma queryCalls_cons_call (q : QueryKind) (tr : List Event) :
    queryCalls (Event.call q :: tr) = q :: queryCalls tr := rfl

/-- The run of show_status on a backend whose four queries all succeed:
the header, then the four query calls in order, then the four rendered
sections in the same order, with exit code 0. -/
lemma show_status_ok_eq (region : String) (now : Int)
    (p1 : List (List DataLake)) (p2 : List (List DataLakeException))
    (p3 : List (List LogSource)) (p4 : List (List Subscriber)) :
    show_status region now
        (Backend.mk (QueryResult.ok p1) (QueryResult.ok p2)
          (QueryResult.ok p3) (QueryResult.ok p4))
      = (0, Event.out (headerLine region)
          :: Event.call QueryKind.dataLakes
          :: Event.call QueryKind.dlExceptions
          :: Event.call QueryKind.logSources
          :: Event.call QueryKind.subscribers
          :: (print_data_lakes (firstPage p1)
              ++ print_exceptions (paginateAll p2) now
              ++ print_log_sources (paginateAll p3)
              ++ print_subscribers (paginateAll p4)).map Event.out) := rfl

/-- C1, counterexample: in a run whose first query fails, show_status
issues only that one query, not all four; so it is not the case that
every run issues all four queries. -/
theorem c1_counterexample :
    queryCalls (show_status "us-east-1" 0
        (Backend.mk (QueryResult.clientError "AccessDenied")
          (QueryResult.ok []) (QueryResult.ok []) (QueryResult.ok []))).2
      = [QueryKind.dataLakes]
    ∧ [QueryKind.dataLakes]
      ≠ [QueryKind.dataLakes, QueryKind.dlExceptions,
         QueryKind.logSources, QueryKind.subscribers]
    ∧ (show_status "us-east-1" 0
        (Backend.mk (QueryResult.clientError "AccessDenied")
          (QueryResult.ok []) (QueryResult.ok []) (QueryResult.ok []))).1
      = 1 := by
  refine ⟨rfl, by simp, rfl⟩

/-- C1 (amended): show_status issues the queries in the fixed order
data lakes, exceptions, log sources, subscribers, stopping at the first
failure (so the issued queries are always a prefix of that order); when
every query succeeds, all four are issued before any section is
rendered, the four sections are rendered in the same order, and the
function returns 0; when any query fails, the function returns 1 and
renders no section at all. -/
theorem c1_show_status_amended (region : String) (now : Int) (b : Backend) :
    (∃ k, queryCalls (show_status region now b).2
        = [QueryKind.dataLakes, QueryKind.dlExceptions,
           QueryKind.logSources, QueryKind.subscribers].take k)
    ∧ (∀ p1 p2 p3 p4,
        b = Backend.mk (QueryResult.ok p1) (QueryResult.ok p2)
              (QueryResult.ok p3) (QueryResult.ok p4) →
        show_status region now b
          = (0, Event.out (headerLine region)
              :: Event.call QueryKind.dataLakes
              :: Event.call QueryKind.dlExceptions
              :: Event.call QueryKind.logSources
              :: Event.call QueryKind.subscribers
              :: (print_data_lakes (firstPage p1)
                  ++ print_exceptions (paginateAll p2) now
                  ++ print_log_sources (paginateAll p3)
                  ++ print_subscribers (paginateAll p4)).map Event.out))
    ∧ ((isOk b.dataLakes && isOk b.dlExceptions && isOk b.logSources
          && isOk b.subscribers) = false →
        (show_status region now b).1 = 1
        ∧ ∀ s ∈ sectionHeads, Event.out s ∉ (show_status region now b).2) := by
  obtain ⟨r1, r2, r3, r4⟩ := b
  cases r1 with
  | clientError m =>
    refine ⟨⟨1, rfl⟩, ?_, ?_⟩
    · intro p1' p2' p3' p4' heq; simp at heq
    · intro _
      refine ⟨rfl, ?_⟩
      intro s hs
      have hnh := sectionHead_ne_headerLine s hs region
      have hnd := sectionHead_ne_clientDiag "✗ Failed to list data lakes: "
        m s hs (by decide)
      simp [show_status, get_data_lakes, hnh, hnd]
  | tokenError =>
    refine ⟨⟨1, rfl⟩, ?_, ?_⟩
    · intro p1' p2' p3' p4' heq; simp at heq
    · intro _
      refine ⟨rfl, ?_⟩
      intro s hs
      have hnh := sectionHead_ne_headerLine s hs region
      have hsso := sectionHead_notMem_sso s hs
      simp [ssoLines] at hsso
      simp [show_status, get_data_lakes, ssoLines, hnh, hsso.1, hsso.2.1,
        hsso.2.2]
  | ok p1 =>
    cases r2 with
    | clientError m =>
      refine ⟨⟨2, rfl⟩, ?_, ?_⟩
      · intro p1' p2' p3' p4' heq; simp at heq
      · intro _
        refine ⟨rfl, ?_⟩
        intro s hs
        have hnh := sectionHead_ne_headerLine s hs region
        have hnd := sectionHead_ne_clientDiag
          "✗ Failed to list data lake exceptions: " m s hs (by decide)
        simp [show_status, get_data_lakes, get_data_lake_exceptions, hnh, hnd]
    | tokenError =>
      refine ⟨⟨2, rfl⟩, ?_, ?_⟩
      · intro p1' p2' p3' p4' heq; simp at heq
      · intro _
        refine ⟨rfl, ?_⟩
        intro s hs
        have hnh := sectionHead_ne_headerLine s hs region
        have hsso := sectionHead_notMem_sso s hs
        simp [ssoLines] at hsso
        simp [show_status, get_data_lakes, get_data_lake_exceptions,
          ssoLines, hnh, hsso.1, hsso.2.1, hsso.2.2]
    | ok p2 =>
      cases r3 with
      | clientError m =>
        refine ⟨⟨3, rfl⟩, ?_, ?_⟩
        · intro p1' p2' p3' p4' heq; simp at heq
        · intro _
          refine ⟨rfl, ?_⟩
          intro s hs
          have hnh := sectionHead_ne_headerLine s hs region
          have hnd := sectionHead_ne_clientDiag
            "✗ Failed to list log sources: " m s hs (by decide)
          simp [show_status, get_data_lakes, get_data_lake_exceptions,
            get_log_sources, hnh, hnd]
      | tokenError =>
        refine ⟨⟨3, rfl⟩, ?_, ?_⟩
        · intro p1' p2' p3' p4' heq; simp at heq
        · intro _
          refine ⟨rfl, ?_⟩
          intro s hs
          have hnh := sectionHead_ne_headerLine s hs region
          have hsso := sectionHead_notMem_sso s hs
          simp [ssoLines] at hsso
          simp [show_status, get_data_lakes, get_data_lake_exceptions,
            get_log_sources, ssoLines, hnh, hsso.1, hsso.2.1, hsso.2.2]
      | ok p3 =>
        cases r4 with
        | clientError m =>
          refine ⟨⟨4, rfl⟩, ?_, ?_⟩
          · intro p1' p2' p3' p4' heq; simp at heq
          · intro _
            refine ⟨rfl, ?_⟩
            intro s hs
            have hnh := sectionHead_ne_headerLine s hs region
            have hnd := sectionHead_ne_clientDiag
              "✗ Failed to list subscribers: " m s hs (by decide)
            simp [show_status, get_data_lakes, get_data_lake_exceptions,
              get_log_sources, get_subscribers, hnh, hnd]
        | tokenError =>
          refine ⟨⟨4, rfl⟩, ?_, ?_⟩
          · intro p1' p2' p3' p4' heq; simp at heq
          · intro _
            refine ⟨rfl, ?_⟩
            intro s hs
            have hnh := sectionHead_ne_headerLine s hs region
            have hsso := sectionHead_notMem_sso s hs
            simp [ssoLines] at hsso
            simp [show_status, get_data_lakes, get_data_lake_exceptions,
              get_log_sources, get_subscribers, ssoLines, hnh, hsso.1,
              hsso.2.1, hsso.2.2]
        | ok p4 =>
          refine ⟨⟨4, ?_⟩, ?_, ?_⟩
          · rw [show_status_ok_eq]
            simp [queryCalls_cons_out, queryCalls_cons_call,
              queryCalls_append, queryCalls_map_out]
          · intro p1' p2' p3' p4' heq
            simp only [Backend.mk.injEq, QueryResult.ok.injEq] at heq
            obtain ⟨rfl, rfl, rfl, rfl⟩ := heq
            exact show_status_ok_eq region now p1 p2 p3 p4
          · intro hfail
            simp [isOk] at hfail

/-- Witness for C1 (amended) at a concrete failing backend. -/
theorem c1_witness :
    (show_status "eu-west-1" 0
        (Backend.mk QueryResult.tokenError (QueryResult.ok [])
          (QueryResult.ok []) (QueryResult.ok []))).1 = 1
    ∧ Event.out "Data Lakes" ∉ (show_status "eu-west-1" 0
        (Backend.mk QueryResult.tokenError (QueryResult.ok [])
          (QueryResult.ok []) (QueryResult.ok []))).2 := by
  have h := (c1_show_status_amended "eu-west-1" 0
    (Backend.mk QueryResult.tokenError (QueryResult.ok [])
      (QueryResult.ok []) (QueryResult.ok []))).2.2 (by decide)
  exact ⟨h.1, h.2 "Data Lakes" (by decide)⟩

/-- C10: show_status always prints the header line first, before any
query; a failed run's output is exactly the header followed by the
failing query's diagnostic, with no section rendered, so it is never
empty. -/
theorem c10_header_before_queries (region : String) (now : Int)
    (b : Backend) :
    (show_status region now b).2.head? = some (Event.out (headerLine region))
    ∧ ((show_status region now b).1 = 1 →
        outputs (show_status region now b).2
          = headerLine region :: firstFailureDiag b
        ∧ firstFailureDiag b ≠ []
        ∧ ∀ s ∈ sectionHeads, s ∉ outputs (show_status region now b).2) := by
  obtain ⟨r1, r2, r3, r4⟩ := b
  cases r1 with
  | clientError m =>
    refine ⟨rfl, fun _ => ⟨rfl, by simp [firstFailureDiag, isOk,
      get_data_lakes], ?_⟩⟩
    intro s hs
    have hnh := sectionHead_ne_headerLine s hs region
    have hnd := sectionHead_ne_clientDiag "✗ Failed to list data lakes: "
      m s hs (by decide)
    simp [show_status, get_data_lakes, outputs, hnh, hnd]
  | tokenError =>
    refine ⟨rfl, fun _ => ⟨rfl, by simp [firstFailureDiag, isOk,
      get_data_lakes, ssoLines], ?_⟩⟩
    intro s hs
    have hnh := sectionHead_ne_headerLine s hs region
    have hsso := sectionHead_notMem_sso s hs
    simp [ssoLines] at hsso
    simp [show_status, get_data_lakes, outputs, ssoLines, hnh, hsso.1,
      hsso.2.1, hsso.2.2]
  | ok p1 =>
    cases r2 with
    | clientError m =>
      refine ⟨rfl, fun _ => ⟨rfl, by simp [firstFailureDiag, isOk,
        get_data_lake_exceptions], ?_⟩⟩
      intro s hs
      have hnh := sectionHead_ne_headerLine s hs region
      have hnd := sectionHead_ne_clientDiag
        "✗ Failed to list data lake exceptions: " m s hs (by decide)
      simp [show_status, get_data_lakes, get_data_lake_exceptions, outputs,
        hnh, hnd]
    | tokenError =>
      refine ⟨rfl, fun _ => ⟨rfl, by simp [firstFailureDiag, isOk,
        get_data_lake_exceptions, ssoLines], ?_⟩⟩
      intro s hs
      have hnh := sectionHead_ne_headerLine s hs region
      have hsso := sectionHead_notMem_sso s hs
      simp [ssoLines] at hsso
      simp [show_status, get_data_lakes, get_data_lake_exceptions, outputs,
        ssoLines, hnh, hsso.1, hsso.2.1, hsso.2.2]
    | ok p2 =>
      cases r3 with
      | clientError m =>
        refine ⟨rfl, fun _ => ⟨rfl, by simp [firstFailureDiag, isOk,
          get_log_sources], ?_⟩⟩
        intro s hs
        have hnh := sectionHead_ne_headerLine s hs region
        have hnd := sectionHead_ne_clientDiag
          "✗ Failed to list log sources: " m s hs (by decide)
        simp [show_status, get_data_lakes, get_data_lake_exceptions,
          get_log_sources, outputs, hnh, hnd]
      | tokenError =>
        refine ⟨rfl, fun _ => ⟨rfl, by simp [firstFailureDiag, isOk,
          get_log_sources, ssoLines], ?_⟩⟩
        intro s hs
        have hnh := sectionHead_ne_headerLine s hs region
        have hsso := sectionHead_notMem_sso s hs
        simp [ssoLines] at hsso
        simp [show_status, get_data_lakes, get_data_lake_exceptions,
          get_log_sources, outputs, ssoLines, hnh, hsso.1, hsso.2.1,
          hsso.2.2]
      | ok p3 =>
        cases r4 with
        | clientError m =>
          refine ⟨rfl, fun _ => ⟨rfl, by simp [firstFailureDiag, isOk,
            get_subscribers], ?_⟩⟩
          intro s hs
          have hnh := sectionHead_ne_headerLine s hs region
          have hnd := sectionHead_ne_clientDiag
            "✗ Failed to list subscribers: " m s hs (by decide)
          simp [show_status, get_data_lakes, get_data_lake_exceptions,
            get_log_sources, get_subscribers, outputs, hnh, hnd]
        | tokenError =>
          refine ⟨rfl, fun _ => ⟨rfl, by simp [firstFailureDiag, isOk,
            get_subscribers, ssoLines], ?_⟩⟩
          intro s hs
          have hnh := sectionHead_ne_headerLine s hs region
          have hsso := sectionHead_notMem_sso s hs
          simp [ssoLines] at hsso
          simp [show_status, get_data_lakes, get_data_lake_exceptions,
            get_log_sources, get_subscribers, outputs, ssoLines, hnh,
            hsso.1, hsso.2.1, hsso.2.2]
        | ok p4 =>
          refine ⟨rfl, ?_⟩
          intro h0
          rw [show_status_ok_eq] at h0
          simp at h0

/-- Witness for C10 at a concrete backend whose second query fails. -/
theorem c10_witness :
    (show_status "ap-south-1" 5
        (Backend.mk (QueryResult.ok [])
          (QueryResult.clientError "AccessDeniedException")
          (QueryResult.ok []) (QueryResult.ok []))).2.head?
      = some (Event.out (headerLine "ap-south-1"))
    ∧ outputs (show_status "ap-south-1" 5
        (Backend.mk (QueryResult.ok [])
          (QueryResult.clientError "AccessDeniedException")
          (QueryResult.ok []) (QueryResult.ok []))).2
      = headerLine "ap-south-1" :: firstFailureDiag
          (Backend.mk (QueryResult.ok [])
            (QueryResult.clientError "AccessDeniedException")
            (QueryResult.ok []) (QueryResult.ok []))
    ∧ firstFailureDiag (Backend.mk (QueryResult.ok [])
          (QueryResult.clientError "AccessDeniedException")
          (QueryResult.ok []) (QueryResult.ok [])) ≠ []
    ∧ "Data Lake Exceptions (last 7 days)" ∉ outputs
        (show_status "ap-south-1" 5
          (Backend.mk (QueryResult.ok [])
            (QueryResult.clientError "AccessDeniedException")
            (QueryResult.ok []) (QueryResult.ok []))).2 := by
  have h := c10_header_before_queries "ap-south-1" 5
    (Backend.mk (QueryResult.ok [])
      (QueryResult.clientError "AccessDeniedException")
      (QueryResult.ok []) (QueryResult.ok []))
  have h2 := h.2 rfl
  exact ⟨h.1, h2.1, h2.2.1,
    h2.2.2 "Data Lake Exceptions (last 7 days)" (by decide)⟩

end SecurityLakeTools
